import Mathlib

/-!
micro-micro: the `service` command (`service/service.go`).

A shallow embedding of `run`, the bootstrap routine of the `micro service`
command.  `run` is a sequence of calls into collaborators (the proxy
constructors, the process runtime, the logger, the multiplexer and the service
container).  The embedding records those calls, in the order in which the Go
code issues them, as a trace of `Event`s; the outcomes of the collaborators are
supplied by an environment `Env`.

Go strings are modelled by Lean `String`s.  `len(s) == 0` and
`strings.HasPrefix(s, p)` with an ASCII `p` give the same answer whether the
string is read as bytes or as characters.
-/

namespace Service

/-! ## Collaborator data -/

/-- The three proxy constructors `grpc.NewProxy`, `http.NewProxy`, `mucp.NewProxy`. -/
inductive ProxyKind where
  | grpc
  | http
  | mucp
  deriving DecidableEq, Repr

/-- A `proxy.Proxy` value: which constructor built it, and the endpoint passed
through `proxy.WithEndpoint(endpoint)`. -/
structure Proxy where
  kind : ProxyKind
  endpoint : String
  deriving DecidableEq, Repr

/-- The `micro.Option` values handed to `micro.NewService`: the ones passed in
by the caller of `run` (kept abstract, numbered), `micro.Name(name)` and
`micro.Address(address)`. -/
inductive MicroOption where
  | given (n : Nat)
  | Name (name : String)
  | Address (address : String)
  deriving DecidableEq, Repr

/-- An output stream; `run` only ever names `os.Stdout`. -/
inductive Writer where
  | Stdout
  | Stderr
  deriving DecidableEq, Repr

/-- The `runtime.CreateOption` values: `runtime.WithCommand(name, args...)` and
`runtime.WithOutput(w)`. -/
inductive CreateOption where
  | WithCommand (program : String) (args : List String)
  | WithOutput (w : Writer)
  deriving DecidableEq, Repr

/-- The `runtime.Service` literal; `run` sets only `Name`. -/
structure RuntimeService where
  Name : String
  deriving DecidableEq, Repr

/-- The value returned by `mux.New(name, p)`. -/
structure Router where
  name : String
  proxy : Proxy
  deriving DecidableEq, Repr

/-- The `server.Option` values; `run` only builds `server.WithRouter(muxer)`. -/
inductive ServerOption where
  | WithRouter (r : Router)
  deriving DecidableEq, Repr

/-- Result of a collaborator call that reports failure through a returned
`error`: `ok` is a nil error, `failed` a non-nil one. -/
inductive Outcome where
  | ok
  | failed
  deriving DecidableEq, Repr

/-- How the blocking call `service.Run()` ends: it returns nil, it returns an
error, an external shutdown unblocks it (it then returns), or it panics. -/
inductive RunEnd where
  | returned
  | failed
  | cancelled
  | panicked
  deriving DecidableEq, Repr

/-- One collaborator call made by `run`, with what it was given and, where the
callee reports one, its outcome. -/
inductive Event where
  | logName (name : String)
  | newProxy (kind : ProxyKind) (endpoint : String)
  | newRuntime
  | create (s : RuntimeService) (opts : List CreateOption) (res : Outcome)
  | start (res : Outcome)
  | logf (format : String) (args : List String)
  | newService (opts : List MicroOption)
  | muxNew (name : String) (p : Proxy)
  | serverInit (opts : List ServerOption) (res : Outcome)
  | serviceRun (fin : RunEnd)
  | delete (s : RuntimeService) (res : Outcome)
  | stop (res : Outcome)
  deriving DecidableEq, Repr

/-- The `cli.Context` as `run` reads it: the three string flags and the
positional arguments `ctx.Args()`; `opts` are the options `run` is called with. -/
structure Config where
  name : String
  address : String
  endpoint : String
  args : List String
  opts : List MicroOption
  deriving DecidableEq, Repr

/-- What the collaborators answer during one execution of `run`:
`p.String()` for a proxy, the results of `Create`, `Start`, `Server().Init`,
`Delete` and `Stop`, and how `service.Run()` ends. -/
structure Env where
  proxyString : Proxy → String
  create : Outcome
  start : Outcome
  init : Outcome
  runEnd : RunEnd
  delete : Outcome
  stop : Outcome

/-- Modelled from the spec: the constant `proxy.DefaultEndpoint` of the proxy
package is not part of this repository; the spec (and the usage text of the
`endpoint` flag, "Defaults to localhost:9090") give its value. -/
def DefaultEndpoint : String := "localhost:9090"

/-! ## Go primitives -/

/-- Go `strings.HasPrefix(s, p)`: `len(s) >= len(p) && s[0:len(p)] == p`. -/
def HasPrefix (s p : String) : Bool :=
  decide (s.length ≥ p.length) && (s.data.take p.length == p.data)

/-- A Go function activation: the calls made so far, the stack of deferred
functions (each given by the calls it makes, most recently deferred first) and
whether the function body is unwinding because of a panic. -/
structure Frame where
  trace : List Event
  deferred : List (List Event)
  panicking : Bool
  deriving DecidableEq, Repr

/-- An activation that has not done anything yet. -/
def Frame.init : Frame := ⟨[], [], false⟩

/-- A statement that calls a collaborator: skipped while unwinding. -/
def Frame.call (f : Frame) (e : Event) : Frame :=
  if f.panicking then f else { f with trace := f.trace ++ [e] }

/-- A `defer` statement: pushes the function, unless already unwinding. -/
def Frame.defer (f : Frame) (d : List Event) : Frame :=
  if f.panicking then f else { f with deferred := d :: f.deferred }

/-- A collaborator call that panics: the call is made, then unwinding starts. -/
def Frame.callPanic (f : Frame) (e : Event) : Frame :=
  if f.panicking then f else { f with trace := f.trace ++ [e], panicking := true }

/-- Function exit, by return or by panic: the deferred functions run, last
deferred first. -/
def Frame.exit (f : Frame) : Frame :=
  { f with trace := f.trace ++ f.deferred.flatten, deferred := [] }

/-! ## `run` -/

/-- Lines 27-33: `micro.Name(name)` and `micro.Address(address)` are appended
to the options when the flag is non-empty. -/
def serviceOpts (cfg : Config) : List MicroOption :=
  let opts := cfg.opts
  let opts := if cfg.name.length > 0 then opts ++ [MicroOption.Name cfg.name] else opts
  let opts := if cfg.address.length > 0 then opts ++ [MicroOption.Address cfg.address] else opts
  opts

/-- Lines 35-37: an empty endpoint is replaced by `proxy.DefaultEndpoint`. -/
def normalizeEndpoint (endpoint : String) : String :=
  if endpoint.length == 0 then DefaultEndpoint else endpoint

/-- Lines 39-48: the `switch` that picks the proxy constructor. -/
def selectProxy (endpoint : String) : Proxy :=
  if HasPrefix endpoint "grpc" then ⟨ProxyKind.grpc, endpoint⟩
  else if HasPrefix endpoint "http" then ⟨ProxyKind.http, endpoint⟩
  else ⟨ProxyKind.mucp, endpoint⟩

/-- Lines 50-74: when positional arguments are present, a runtime is made, the
service is created and started (both results are discarded) and the teardown
closure is deferred. -/
def supervise (env : Env) (name : String) (ctxArgs : List String) (f : Frame) : Frame :=
  if h : ctxArgs.length > 0 then
    let args := [CreateOption.WithCommand (ctxArgs.get ⟨0, h⟩) (ctxArgs.drop 1),
      CreateOption.WithOutput Writer.Stdout]
    let f := f.call Event.newRuntime
    let f := f.call (Event.create ⟨name⟩ args env.create)
    let f := f.call (Event.start env.start)
    f.defer [Event.delete ⟨name⟩ env.delete, Event.stop env.stop]
  else f

/-- The last statement, `service.Run()`, whose result is discarded. -/
def serve (env : Env) (f : Frame) : Frame :=
  match env.runEnd with
  | RunEnd.panicked => f.callPanic (Event.serviceRun RunEnd.panicked)
  | e => f.call (Event.serviceRun e)

/-- The function `run(ctx, opts...)` of `service/service.go`. -/
def run (env : Env) (cfg : Config) : Frame :=
  let f := Frame.init
  let f := f.call (Event.logName "service")
  let name := cfg.name
  let opts := serviceOpts cfg
  let endpoint := normalizeEndpoint cfg.endpoint
  let p := selectProxy endpoint
  let f := f.call (Event.newProxy p.kind p.endpoint)
  let f := supervise env name cfg.args f
  let f := f.call (Event.logf "Service [%s] Serving %s at endpoint %s\n"
    [env.proxyString p, name, endpoint])
  let f := f.call (Event.newService opts)
  let muxer : Router := ⟨name, p⟩
  let f := f.call (Event.muxNew name p)
  let f := f.call (Event.serverInit [ServerOption.WithRouter muxer] env.init)
  let f := serve env f
  f.exit

/-- An environment in which every collaborator succeeds and `service.Run()`
ends as given; a proxy prints as the name of its package. -/
def okEnv (fin : RunEnd) : Env where
  proxyString := fun p => match p.kind with
    | ProxyKind.grpc => "grpc"
    | ProxyKind.http => "http"
    | ProxyKind.mucp => "mucp"
  create := Outcome.ok
  start := Outcome.ok
  init := Outcome.ok
  runEnd := fin
  delete := Outcome.ok
  stop := Outcome.ok

/-- Scenario 1 of the spec: a name, a listen address, no endpoint, no command. -/
def scenario1 : Config := ⟨"svc", ":8080", "", [], []⟩

/-- Scenario 2 of the spec: a gRPC endpoint and a backend command with one flag. -/
def scenario2 : Config := ⟨"svc", "", "grpc://localhost:9000", ["./backend", "--flag"], []⟩

/-- Scenario 3 of the spec: a backend command naming a bad executable. -/
def scenario3 : Config := ⟨"svc", "", "", ["./missing"], []⟩

/-- A backend command, but no name. -/
def unnamedBackend : Config := ⟨"", "", "", ["./backend"], []⟩

/-- An environment in which the runtime reports failure from both `Create` and
`Start`, everything else succeeding. -/
def launchFailsEnv : Env :=
  { okEnv RunEnd.returned with create := Outcome.failed, start := Outcome.failed }

/-! ## Observations on traces -/

/-- Is the call a proxy construction? -/
def Event.isNewProxy : Event → Bool
  | .newProxy _ _ => true
  | _ => false

/-- Is the call `runtime.NewRuntime()`? -/
def Event.isNewRuntime : Event → Bool
  | .newRuntime => true
  | _ => false

/-- Is the call the runtime's `Create`? -/
def Event.isCreate : Event → Bool
  | .create _ _ _ => true
  | _ => false

/-- Is the call the runtime's `Start`? -/
def Event.isStart : Event → Bool
  | .start _ => true
  | _ => false

/-- Is the call `log.Logf`? -/
def Event.isLogf : Event → Bool
  | .logf _ _ => true
  | _ => false

/-- Is the call `micro.NewService`? -/
def Event.isNewService : Event → Bool
  | .newService _ => true
  | _ => false

/-- Is the call `mux.New`? -/
def Event.isMuxNew : Event → Bool
  | .muxNew _ _ => true
  | _ => false

/-- Is the call `service.Server().Init(...)`, the installation of the router? -/
def Event.isServerInit : Event → Bool
  | .serverInit _ _ => true
  | _ => false

/-- Is the call `service.Run()`? -/
def Event.isServiceRun : Event → Bool
  | .serviceRun _ => true
  | _ => false

/-- Is the call the runtime's `Delete`? -/
def Event.isDelete : Event → Bool
  | .delete _ _ => true
  | _ => false

/-- Is the call the runtime's `Stop`? -/
def Event.isStop : Event → Bool
  | .stop _ => true
  | _ => false

/-- A `Create` that succeeded. -/
def Event.isCreateOk : Event → Bool
  | .create _ _ .ok => true
  | _ => false

/-- A `Start` that succeeded. -/
def Event.isStartOk : Event → Bool
  | .start .ok => true
  | _ => false

/-- A `Create` that failed. -/
def Event.isCreateFailed : Event → Bool
  | .create _ _ .failed => true
  | _ => false

/-- A `Start` that failed. -/
def Event.isStartFailed : Event → Bool
  | .start .failed => true
  | _ => false

/-- In the trace, every `p` call comes strictly before every `q` call. -/
def Precedes (p q : Event → Bool) (tr : List Event) : Prop :=
  ∀ (i j : Nat) (hi : i < tr.length) (hj : j < tr.length),
    p (tr.get ⟨i, hi⟩) = true → q (tr.get ⟨j, hj⟩) = true → i < j

/-- The string `s` begins with the string `p`. -/
def BeginsWith (s p : String) : Prop := ∃ t : String, s = p ++ t

/-- The calls of lines 50-66, as a list. -/
def launchCalls (env : Env) (name : String) : List String → List Event
  | [] => []
  | a0 :: rest =>
    [Event.newRuntime,
     Event.create ⟨name⟩ [CreateOption.WithCommand a0 rest, CreateOption.WithOutput Writer.Stdout]
       env.create,
     Event.start env.start]

/-- The calls of the deferred closure of lines 68-73, as a list. -/
def teardownCalls (env : Env) (name : String) : List String → List Event
  | [] => []
  | _ :: _ => [Event.delete ⟨name⟩ env.delete, Event.stop env.stop]

/-! ## Lemmas -/

theorem hasPrefix_iff (s p : String) : HasPrefix s p = true ↔ BeginsWith s p := by
  unfold HasPrefix BeginsWith
  constructor
  · intro h
    simp only [Bool.and_eq_true, decide_eq_true_eq, beq_iff_eq] at h
    refine ⟨⟨s.data.drop p.length⟩, ?_⟩
    apply String.ext
    rw [String.data_append, ← h.2]
    exact (List.take_append_drop _ _).symm
  · rintro ⟨t, rfl⟩
    simp only [Bool.and_eq_true, decide_eq_true_eq, beq_iff_eq, String.length_append,
      String.data_append]
    refine ⟨Nat.le_add_right _ _, ?_⟩
    have : p.length = p.data.length := rfl
    rw [this, List.take_left]

theorem length_eq_zero_iff (s : String) : s.length = 0 ↔ s = "" := by
  constructor
  · intro h
    apply String.ext
    exact List.length_eq_zero.mp h
  · rintro rfl
    rfl

theorem normalizeEndpoint_eq (e : String) :
    normalizeEndpoint e = if e = "" then DefaultEndpoint else e := by
  unfold normalizeEndpoint
  by_cases h : e = ""
  · subst h
    rfl
  · have : ¬ e.length = 0 := fun h0 => h ((length_eq_zero_iff e).mp h0)
    simp [h, this]

theorem selectProxy_endpoint (e : String) : (selectProxy e).endpoint = e := by
  unfold selectProxy
  split_ifs <;> rfl

/-- The calls made by one execution of `run`, in order. -/
theorem run_trace (env : Env) (cfg : Config) :
    (run env cfg).trace =
      [Event.logName "service",
       Event.newProxy (selectProxy (normalizeEndpoint cfg.endpoint)).kind
         (normalizeEndpoint cfg.endpoint)]
      ++ launchCalls env cfg.name cfg.args
      ++ [Event.logf "Service [%s] Serving %s at endpoint %s\n"
            [env.proxyString (selectProxy (normalizeEndpoint cfg.endpoint)), cfg.name,
              normalizeEndpoint cfg.endpoint],
          Event.newService (serviceOpts cfg),
          Event.muxNew cfg.name (selectProxy (normalizeEndpoint cfg.endpoint)),
          Event.serverInit
            [ServerOption.WithRouter ⟨cfg.name, selectProxy (normalizeEndpoint cfg.endpoint)⟩]
            env.init,
          Event.serviceRun env.runEnd]
      ++ teardownCalls env cfg.name cfg.args := by
  obtain ⟨name, address, endpoint, args, opts⟩ := cfg
  cases args with
  | nil =>
    cases h : env.runEnd <;>
      simp [run, supervise, serve, h, Frame.call, Frame.callPanic, Frame.defer, Frame.exit,
        Frame.init, launchCalls, teardownCalls, selectProxy_endpoint]
  | cons a0 rest =>
    cases h : env.runEnd <;>
      simp [run, supervise, serve, h, Frame.call, Frame.callPanic, Frame.defer, Frame.exit,
        Frame.init, launchCalls, teardownCalls, selectProxy_endpoint]

/-- The calls of a run without positional arguments. -/
theorem run_trace_nil (env : Env) (cfg : Config) (h : cfg.args = []) :
    (run env cfg).trace =
      [Event.logName "service",
       Event.newProxy (selectProxy (normalizeEndpoint cfg.endpoint)).kind
         (normalizeEndpoint cfg.endpoint),
       Event.logf "Service [%s] Serving %s at endpoint %s\n"
         [env.proxyString (selectProxy (normalizeEndpoint cfg.endpoint)), cfg.name,
           normalizeEndpoint cfg.endpoint],
       Event.newService (serviceOpts cfg),
       Event.muxNew cfg.name (selectProxy (normalizeEndpoint cfg.endpoint)),
       Event.serverInit
         [ServerOption.WithRouter ⟨cfg.name, selectProxy (normalizeEndpoint cfg.endpoint)⟩]
         env.init,
       Event.serviceRun env.runEnd] := by
  rw [run_trace, h]
  rfl

/-- The calls of a run with positional arguments `a0 :: rest`. -/
theorem run_trace_cons (env : Env) (cfg : Config) (a0 : String) (rest : List String)
    (h : cfg.args = a0 :: rest) :
    (run env cfg).trace =
      [Event.logName "service",
       Event.newProxy (selectProxy (normalizeEndpoint cfg.endpoint)).kind
         (normalizeEndpoint cfg.endpoint),
       Event.newRuntime,
       Event.create ⟨cfg.name⟩
         [CreateOption.WithCommand a0 rest, CreateOption.WithOutput Writer.Stdout] env.create,
       Event.start env.start,
       Event.logf "Service [%s] Serving %s at endpoint %s\n"
         [env.proxyString (selectProxy (normalizeEndpoint cfg.endpoint)), cfg.name,
           normalizeEndpoint cfg.endpoint],
       Event.newService (serviceOpts cfg),
       Event.muxNew cfg.name (selectProxy (normalizeEndpoint cfg.endpoint)),
       Event.serverInit
         [ServerOption.WithRouter ⟨cfg.name, selectProxy (normalizeEndpoint cfg.endpoint)⟩]
         env.init,
       Event.serviceRun env.runEnd,
       Event.delete ⟨cfg.name⟩ env.delete,
       Event.stop env.stop] := by
  rw [run_trace, h]
  rfl

/-- The function `run` unwinds by panic exactly when `service.Run()` panics. -/
theorem run_panicking (env : Env) (cfg : Config) :
    (run env cfg).panicking = decide (env.runEnd = RunEnd.panicked) := by
  obtain ⟨name, address, endpoint, args, opts⟩ := cfg
  cases args <;> cases h : env.runEnd <;>
    simp [run, supervise, serve, h, Frame.call, Frame.callPanic, Frame.defer, Frame.exit,
      Frame.init]

theorem precedes_of_pairwise (p q : Event → Bool) (tr : List Event)
    (h1 : ∀ e ∈ tr, ¬ (p e = true ∧ q e = true))
    (h2 : tr.Pairwise (fun a b => ¬ (q a = true ∧ p b = true))) : Precedes p q tr := by
  intro i j hi hj hp hq
  rcases Nat.lt_trichotomy i j with h | h | h
  · exact h
  · subst h
    exact absurd ⟨hp, hq⟩ (h1 _ (List.get_mem tr i hi))
  · exact absurd ⟨hq, hp⟩ (List.pairwise_iff_get.mp h2 ⟨j, hj⟩ ⟨i, hi⟩ h)

/-! ## Claims -/

/-- Claim C1: proxy selection in `run` is a case-sensitive classification of the
normalized endpoint by its leading characters.  The only proxy constructed is the
gRPC one when the endpoint begins with "grpc", the HTTP one when it begins with
"http", and the generic (mucp) one for every other string, upper-case variants
included; "grpcs://x:1" gives gRPC, "https://x:1" gives HTTP, "x:1" gives mucp. -/
theorem C1_proxy_selection (env : Env) (cfg : Config) :
    (BeginsWith (normalizeEndpoint cfg.endpoint) "grpc" →
      (run env cfg).trace.filter Event.isNewProxy
        = [Event.newProxy ProxyKind.grpc (normalizeEndpoint cfg.endpoint)]) ∧
    (BeginsWith (normalizeEndpoint cfg.endpoint) "http" →
      (run env cfg).trace.filter Event.isNewProxy
        = [Event.newProxy ProxyKind.http (normalizeEndpoint cfg.endpoint)]) ∧
    (¬ BeginsWith (normalizeEndpoint cfg.endpoint) "grpc" →
      ¬ BeginsWith (normalizeEndpoint cfg.endpoint) "http" →
      (run env cfg).trace.filter Event.isNewProxy
        = [Event.newProxy ProxyKind.mucp (normalizeEndpoint cfg.endpoint)]) ∧
    (cfg.endpoint = "grpcs://x:1" →
      (run env cfg).trace.filter Event.isNewProxy
        = [Event.newProxy ProxyKind.grpc "grpcs://x:1"]) ∧
    (cfg.endpoint = "https://x:1" →
      (run env cfg).trace.filter Event.isNewProxy
        = [Event.newProxy ProxyKind.http "https://x:1"]) ∧
    (cfg.endpoint = "x:1" →
      (run env cfg).trace.filter Event.isNewProxy
        = [Event.newProxy ProxyKind.mucp "x:1"]) ∧
    (cfg.endpoint = "GRPC://x" →
      (run env cfg).trace.filter Event.isNewProxy
        = [Event.newProxy ProxyKind.mucp "GRPC://x"]) ∧
    (cfg.endpoint = "HTTP://x" →
      (run env cfg).trace.filter Event.isNewProxy
        = [Event.newProxy ProxyKind.mucp "HTTP://x"]) := by
  have key : (run env cfg).trace.filter Event.isNewProxy
      = [Event.newProxy (selectProxy (normalizeEndpoint cfg.endpoint)).kind
          (normalizeEndpoint cfg.endpoint)] := by
    rw [run_trace]
    cases h : cfg.args <;>
      simp [launchCalls, teardownCalls, List.filter, Event.isNewProxy]
  have conc : ∀ (e : String) (k : ProxyKind), (selectProxy (normalizeEndpoint e)).kind = k →
      normalizeEndpoint e = e → cfg.endpoint = e →
      (run env cfg).trace.filter Event.isNewProxy = [Event.newProxy k e] := by
    intro e k hk hn he
    rw [key, he, hk, hn]
  refine ⟨?_, ?_, ?_, ?_, ?_, ?_, ?_, ?_⟩
  · intro h
    rw [key]
    simp [selectProxy, (hasPrefix_iff _ _).mpr h]
  · intro h
    rw [key]
    by_cases hg : HasPrefix (normalizeEndpoint cfg.endpoint) "grpc" = true
    · exfalso
      have h1 := (hasPrefix_iff _ _).mp hg
      obtain ⟨t, ht⟩ := h
      obtain ⟨u, hu⟩ := h1
      have := congrArg String.data (ht.symm.trans hu)
      have e1 : ("http" : String).data = ['h', 't', 't', 'p'] := rfl
      have e2 : ("grpc" : String).data = ['g', 'r', 'p', 'c'] := rfl
      simp [String.data_append, e1, e2] at this
    · simp [selectProxy, hg, (hasPrefix_iff _ _).mpr h]
  · intro hg hh
    rw [key]
    have hg1 : ¬ HasPrefix (normalizeEndpoint cfg.endpoint) "grpc" = true :=
      fun h => hg ((hasPrefix_iff _ _).mp h)
    have hh1 : ¬ HasPrefix (normalizeEndpoint cfg.endpoint) "http" = true :=
      fun h => hh ((hasPrefix_iff _ _).mp h)
    simp [selectProxy, hg1, hh1]
  · exact conc _ _ (by decide) (by decide)
  · exact conc _ _ (by decide) (by decide)
  · exact conc _ _ (by decide) (by decide)
  · exact conc _ _ (by decide) (by decide)
  · exact conc _ _ (by decide) (by decide)

/-- Instance of C1 at the endpoint "grpc://localhost:9000". -/
theorem C1_proxy_selection_witness :
    BeginsWith (normalizeEndpoint "grpc://localhost:9000") "grpc" ∧
    (run (okEnv RunEnd.returned)
        ⟨"svc", ":8080", "grpc://localhost:9000", ["./backend", "--flag"], []⟩).trace.filter
      Event.isNewProxy
      = [Event.newProxy ProxyKind.grpc (normalizeEndpoint "grpc://localhost:9000")] :=
  ⟨⟨"://localhost:9000", by decide⟩,
   (C1_proxy_selection (okEnv RunEnd.returned)
      ⟨"svc", ":8080", "grpc://localhost:9000", ["./backend", "--flag"], []⟩).1
      ⟨"://localhost:9000", by decide⟩⟩

/-- Claim C2: the endpoint that `run` classifies and hands to the proxy
constructor is the configured endpoint when that is non-empty and the default
"localhost:9090" when it is empty; so it is never empty, a non-empty endpoint is
passed on unchanged, and an empty one gives the generic (mucp) proxy built with
the default endpoint. -/
theorem C2_endpoint_normalization (env : Env) (cfg : Config) :
    ∃ (k : ProxyKind) (e : String),
      (run env cfg).trace.filter Event.isNewProxy = [Event.newProxy k e] ∧
      k = (selectProxy e).kind ∧
      e ≠ "" ∧
      (cfg.endpoint ≠ "" → e = cfg.endpoint) ∧
      (cfg.endpoint = "" → e = "localhost:9090" ∧ k = ProxyKind.mucp) := by
  refine ⟨(selectProxy (normalizeEndpoint cfg.endpoint)).kind, normalizeEndpoint cfg.endpoint,
    ?_, rfl, ?_, ?_, ?_⟩
  · rw [run_trace]
    cases h : cfg.args <;>
      simp [launchCalls, teardownCalls, List.filter, Event.isNewProxy]
  · rw [normalizeEndpoint_eq]
    split_ifs with h
    · decide
    · exact h
  · intro h
    rw [normalizeEndpoint_eq, if_neg h]
  · intro h
    rw [normalizeEndpoint_eq, if_pos h]
    exact ⟨by decide, by decide⟩

/-- Instance of C2 at scenario 1, whose endpoint is empty. -/
theorem C2_endpoint_normalization_witness :
    scenario1.endpoint = "" ∧
    (run (okEnv RunEnd.returned) scenario1).trace.filter Event.isNewProxy
      = [Event.newProxy ProxyKind.mucp "localhost:9090"] := by
  obtain ⟨k, e, h1, _, _, _, h5⟩ :=
    C2_endpoint_normalization (okEnv RunEnd.returned) scenario1
  obtain ⟨he, hk⟩ := h5 rfl
  rw [h1, he, hk]
  exact ⟨rfl, rfl⟩

/-- Claim C3: in every run in which the backend was registered and started, the
trace ends with the server-run call followed by exactly one teardown, one
runtime Delete and then one runtime Stop, however the server-run call ended
(returned, failed, cancelled or panicked); nothing before that is a server-run,
Delete or Stop call.  A run without a backend command makes no Delete and no
Stop call. -/
theorem C3_teardown (env : Env) (cfg : Config) :
    ((run env cfg).trace.any Event.isCreateOk = true →
      (run env cfg).trace.any Event.isStartOk = true →
      (∃ pre : List Event,
        (run env cfg).trace = pre ++ [Event.serviceRun env.runEnd,
          Event.delete ⟨cfg.name⟩ env.delete, Event.stop env.stop] ∧
        ∀ e ∈ pre, e.isServiceRun = false ∧ e.isDelete = false ∧ e.isStop = false) ∧
      (run env cfg).trace.countP Event.isDelete = 1 ∧
      (run env cfg).trace.countP Event.isStop = 1) ∧
    (cfg.args = [] →
      ∀ e ∈ (run env cfg).trace, e.isDelete = false ∧ e.isStop = false) := by
  cases h : cfg.args with
  | nil =>
    rw [run_trace_nil env cfg h]
    refine ⟨?_, ?_⟩
    · intro h1
      simp [Event.isCreateOk] at h1
    · intro _
      simp [Event.isDelete, Event.isStop]
  | cons a0 rest =>
    rw [run_trace_cons env cfg a0 rest h]
    refine ⟨?_, ?_⟩
    · intro _ _
      refine ⟨⟨List.take 9 (run env cfg).trace, ?_, ?_⟩, ?_, ?_⟩
      · rw [run_trace_cons env cfg a0 rest h]
        rfl
      · rw [run_trace_cons env cfg a0 rest h]
        simp [Event.isServiceRun, Event.isDelete, Event.isStop]
      · simp [List.countP_cons, Event.isDelete]
      · simp [List.countP_cons, Event.isStop]
    · intro h2
      simp at h2

/-- Instance of C3 at scenario 2 with a server-run call that panics. -/
theorem C3_teardown_witness :
    (run (okEnv RunEnd.panicked) scenario2).trace.any Event.isCreateOk = true ∧
    (run (okEnv RunEnd.panicked) scenario2).trace.any Event.isStartOk = true ∧
    (∃ pre : List Event,
      (run (okEnv RunEnd.panicked) scenario2).trace = pre ++ [Event.serviceRun RunEnd.panicked,
        Event.delete ⟨"svc"⟩ Outcome.ok, Event.stop Outcome.ok] ∧
      ∀ e ∈ pre, e.isServiceRun = false ∧ e.isDelete = false ∧ e.isStop = false) ∧
    scenario1.args = [] ∧
    (∀ e ∈ (run (okEnv RunEnd.panicked) scenario1).trace,
      e.isDelete = false ∧ e.isStop = false) :=
  ⟨by decide, by decide,
   ((C3_teardown (okEnv RunEnd.panicked) scenario2).1 (by decide) (by decide)).1,
   rfl,
   (C3_teardown (okEnv RunEnd.panicked) scenario1).2 rfl⟩

/-- Counterexample to C4: in scenario 3 with a runtime whose `Create` and `Start`
both fail, `run` goes on to create and install the router, runs the server, and
executes the teardown. -/
theorem C4_launch_failure_counterexample :
    (run launchFailsEnv scenario3).trace =
      [Event.logName "service",
       Event.newProxy ProxyKind.mucp "localhost:9090",
       Event.newRuntime,
       Event.create ⟨"svc"⟩
         [CreateOption.WithCommand "./missing" [], CreateOption.WithOutput Writer.Stdout]
         Outcome.failed,
       Event.start Outcome.failed,
       Event.logf "Service [%s] Serving %s at endpoint %s\n" ["mucp", "svc", "localhost:9090"],
       Event.newService [MicroOption.Name "svc"],
       Event.muxNew "svc" ⟨ProxyKind.mucp, "localhost:9090"⟩,
       Event.serverInit [ServerOption.WithRouter ⟨"svc", ⟨ProxyKind.mucp, "localhost:9090"⟩⟩]
         Outcome.ok,
       Event.serviceRun RunEnd.returned,
       Event.delete ⟨"svc"⟩ Outcome.ok,
       Event.stop Outcome.ok] ∧
    ¬ (∀ e ∈ (run launchFailsEnv scenario3).trace,
        e.isMuxNew = false ∧ e.isServerInit = false ∧ e.isServiceRun = false ∧
        e.isDelete = false ∧ e.isStop = false) := by
  decide

/-- Claim C4, amended: `run` discards the results of the runtime's `Create` and
`Start`.  In every run in which one of them fails, the calls still made are, in
this order and once each: Create, Start, creation of the router, its
installation in the server, the server-run call, Delete and Stop. -/
theorem C4_launch_failure_not_checked (env : Env) (cfg : Config)
    (hfail : (run env cfg).trace.any (fun e => e.isCreateFailed || e.isStartFailed) = true) :
    ∃ (program : String) (arguments : List String),
      cfg.args = program :: arguments ∧
      (run env cfg).trace.filter (fun e => e.isCreate || e.isStart || e.isMuxNew ||
          e.isServerInit || e.isServiceRun || e.isDelete || e.isStop) =
        [Event.create ⟨cfg.name⟩
           [CreateOption.WithCommand program arguments, CreateOption.WithOutput Writer.Stdout]
           env.create,
         Event.start env.start,
         Event.muxNew cfg.name (selectProxy (normalizeEndpoint cfg.endpoint)),
         Event.serverInit
           [ServerOption.WithRouter ⟨cfg.name, selectProxy (normalizeEndpoint cfg.endpoint)⟩]
           env.init,
         Event.serviceRun env.runEnd,
         Event.delete ⟨cfg.name⟩ env.delete,
         Event.stop env.stop] := by
  cases h : cfg.args with
  | nil =>
    rw [run_trace_nil env cfg h] at hfail
    simp [Event.isCreateFailed, Event.isStartFailed] at hfail
  | cons a0 rest =>
    refine ⟨a0, rest, rfl, ?_⟩
    rw [run_trace_cons env cfg a0 rest h]
    simp [List.filter, Event.isCreate, Event.isStart, Event.isMuxNew, Event.isServerInit,
      Event.isServiceRun, Event.isDelete, Event.isStop]

/-- Instance of the amended C4 at scenario 3 with a failing launch. -/
theorem C4_launch_failure_not_checked_witness :
    (run launchFailsEnv scenario3).trace.any
        (fun e => e.isCreateFailed || e.isStartFailed) = true ∧
    ∃ (program : String) (arguments : List String),
      scenario3.args = program :: arguments ∧
      (run launchFailsEnv scenario3).trace.filter (fun e => e.isCreate || e.isStart ||
          e.isMuxNew || e.isServerInit || e.isServiceRun || e.isDelete || e.isStop) =
        [Event.create ⟨scenario3.name⟩
           [CreateOption.WithCommand program arguments, CreateOption.WithOutput Writer.Stdout]
           launchFailsEnv.create,
         Event.start launchFailsEnv.start,
         Event.muxNew scenario3.name (selectProxy (normalizeEndpoint scenario3.endpoint)),
         Event.serverInit
           [ServerOption.WithRouter
             ⟨scenario3.name, selectProxy (normalizeEndpoint scenario3.endpoint)⟩]
           launchFailsEnv.init,
         Event.serviceRun launchFailsEnv.runEnd,
         Event.delete ⟨scenario3.name⟩ launchFailsEnv.delete,
         Event.stop launchFailsEnv.stop] :=
  ⟨by decide, C4_launch_failure_not_checked launchFailsEnv scenario3 (by decide)⟩

/-- Claim C5: in the calls made by any run, proxy construction comes before the
runtime's Create, Create before Start, Start before the installation of the
router in the server, and that installation before the server-run call; with or
without a backend command there is exactly one proxy construction, one router
installation and one server-run call, so the server never runs before the router
is installed; with a backend command Create and Start each occur exactly once. -/
theorem C5_ordering (env : Env) (cfg : Config) :
    Precedes Event.isNewProxy Event.isCreate (run env cfg).trace ∧
    Precedes Event.isCreate Event.isStart (run env cfg).trace ∧
    Precedes Event.isStart Event.isServerInit (run env cfg).trace ∧
    Precedes Event.isServerInit Event.isServiceRun (run env cfg).trace ∧
    Precedes Event.isNewProxy Event.isServerInit (run env cfg).trace ∧
    (run env cfg).trace.countP Event.isNewProxy = 1 ∧
    (run env cfg).trace.countP Event.isServerInit = 1 ∧
    (run env cfg).trace.countP Event.isServiceRun = 1 ∧
    (cfg.args ≠ [] →
      (run env cfg).trace.countP Event.isCreate = 1 ∧
      (run env cfg).trace.countP Event.isStart = 1) := by
  cases h : cfg.args with
  | nil =>
    rw [run_trace_nil env cfg h]
    refine ⟨?_, ?_, ?_, ?_, ?_, ?_, ?_, ?_, ?_⟩
    iterate 5
      apply precedes_of_pairwise <;>
        simp [Event.isNewProxy, Event.isCreate, Event.isStart, Event.isServerInit,
          Event.isServiceRun]
    all_goals
      simp [List.countP_cons, Event.isNewProxy, Event.isCreate, Event.isStart,
        Event.isServerInit, Event.isServiceRun]
  | cons a0 rest =>
    rw [run_trace_cons env cfg a0 rest h]
    refine ⟨?_, ?_, ?_, ?_, ?_, ?_, ?_, ?_, ?_⟩
    iterate 5
      apply precedes_of_pairwise <;>
        simp [Event.isNewProxy, Event.isCreate, Event.isStart, Event.isServerInit,
          Event.isServiceRun]
    all_goals
      simp [List.countP_cons, Event.isNewProxy, Event.isCreate, Event.isStart,
        Event.isServerInit, Event.isServiceRun]

/-- Instance of C5 at scenario 2, which has a backend command. -/
theorem C5_ordering_witness :
    scenario2.args ≠ [] ∧
    Precedes Event.isServerInit Event.isServiceRun (run (okEnv RunEnd.returned) scenario2).trace ∧
    (run (okEnv RunEnd.returned) scenario2).trace.countP Event.isCreate = 1 ∧
    (run (okEnv RunEnd.returned) scenario2).trace.countP Event.isStart = 1 :=
  ⟨by decide, (C5_ordering (okEnv RunEnd.returned) scenario2).2.2.2.1,
   (C5_ordering (okEnv RunEnd.returned) scenario2).2.2.2.2.2.2.2.2 (by decide)⟩

/-- Claim C6: a run whose positional argument list is empty makes no
`NewRuntime`, Create, Start, Delete or Stop call, while it still constructs the
proxy, installs the router and runs the server: its calls are exactly the log
name, the proxy construction, the log line, `NewService`, `mux.New`, the router
installation and the server-run call. -/
theorem C6_no_command_no_supervision (env : Env) (cfg : Config) (h : cfg.args = []) :
    (∀ e ∈ (run env cfg).trace,
      e.isNewRuntime = false ∧ e.isCreate = false ∧ e.isStart = false ∧
      e.isDelete = false ∧ e.isStop = false) ∧
    (run env cfg).trace.countP Event.isNewProxy = 1 ∧
    (run env cfg).trace.countP Event.isServerInit = 1 ∧
    (run env cfg).trace.countP Event.isServiceRun = 1 ∧
    (run env cfg).trace =
      [Event.logName "service",
       Event.newProxy (selectProxy (normalizeEndpoint cfg.endpoint)).kind
         (normalizeEndpoint cfg.endpoint),
       Event.logf "Service [%s] Serving %s at endpoint %s\n"
         [env.proxyString (selectProxy (normalizeEndpoint cfg.endpoint)), cfg.name,
           normalizeEndpoint cfg.endpoint],
       Event.newService (serviceOpts cfg),
       Event.muxNew cfg.name (selectProxy (normalizeEndpoint cfg.endpoint)),
       Event.serverInit
         [ServerOption.WithRouter ⟨cfg.name, selectProxy (normalizeEndpoint cfg.endpoint)⟩]
         env.init,
       Event.serviceRun env.runEnd] := by
  rw [run_trace_nil env cfg h]
  refine ⟨?_, ?_, ?_, ?_, rfl⟩
  · simp [Event.isNewRuntime, Event.isCreate, Event.isStart, Event.isDelete, Event.isStop]
  · simp [List.countP_cons, Event.isNewProxy]
  · simp [List.countP_cons, Event.isServerInit]
  · simp [List.countP_cons, Event.isServiceRun]

/-- Instance of C6 at scenario 1 (name "svc", empty endpoint, empty command). -/
theorem C6_no_command_no_supervision_witness :
    scenario1.args = [] ∧
    (∀ e ∈ (run (okEnv RunEnd.cancelled) scenario1).trace,
      e.isNewRuntime = false ∧ e.isCreate = false ∧ e.isStart = false ∧
      e.isDelete = false ∧ e.isStop = false) ∧
    (run (okEnv RunEnd.cancelled) scenario1).trace.countP Event.isNewProxy = 1 ∧
    (run (okEnv RunEnd.cancelled) scenario1).trace.countP Event.isServerInit = 1 ∧
    (run (okEnv RunEnd.cancelled) scenario1).trace.countP Event.isServiceRun = 1 :=
  ⟨rfl, (C6_no_command_no_supervision (okEnv RunEnd.cancelled) scenario1 rfl).1,
   (C6_no_command_no_supervision (okEnv RunEnd.cancelled) scenario1 rfl).2.1,
   (C6_no_command_no_supervision (okEnv RunEnd.cancelled) scenario1 rfl).2.2.1,
   (C6_no_command_no_supervision (okEnv RunEnd.cancelled) scenario1 rfl).2.2.2.1⟩

/-- Counterexample to C7: with an empty name and the backend command
"./backend", `run` issues the runtime's Create under the empty name (and later
Delete under it). -/
theorem C7_empty_name_counterexample :
    unnamedBackend.name = "" ∧
    (run (okEnv RunEnd.returned) unnamedBackend).trace.filter
        (fun e => e.isCreate || e.isStart || e.isDelete || e.isStop) =
      [Event.create ⟨""⟩
         [CreateOption.WithCommand "./backend" [], CreateOption.WithOutput Writer.Stdout]
         Outcome.ok,
       Event.start Outcome.ok,
       Event.delete ⟨""⟩ Outcome.ok,
       Event.stop Outcome.ok] := by
  decide

/-- Claim C7, amended: in every run whose configured name is empty the proxy is
still constructed and no `micro.Name` option is added to the service options;
supervision does not look at the name: a Create is issued, under the empty
name, exactly when a backend command is supplied. -/
theorem C7_empty_name (env : Env) (cfg : Config) (hname : cfg.name = "") :
    (run env cfg).trace.countP Event.isNewProxy = 1 ∧
    (run env cfg).trace.filter Event.isNewService =
      [Event.newService
        (cfg.opts ++ if cfg.address = "" then [] else [MicroOption.Address cfg.address])] ∧
    (cfg.args = [] → (run env cfg).trace.filter Event.isCreate = []) ∧
    (∀ (program : String) (arguments : List String), cfg.args = program :: arguments →
      (run env cfg).trace.filter Event.isCreate =
        [Event.create ⟨""⟩
          [CreateOption.WithCommand program arguments, CreateOption.WithOutput Writer.Stdout]
          env.create]) := by
  have hopts : serviceOpts cfg
      = cfg.opts ++ if cfg.address = "" then [] else [MicroOption.Address cfg.address] := by
    unfold serviceOpts
    by_cases ha : cfg.address = ""
    · simp [hname, ha]
    · have : 0 < cfg.address.length :=
        Nat.pos_of_ne_zero (fun h0 => ha ((length_eq_zero_iff _).mp h0))
      simp [hname, ha, this]
  cases h : cfg.args with
  | nil =>
    rw [run_trace_nil env cfg h, hopts]
    refine ⟨?_, ?_, ?_, ?_⟩
    · simp [List.countP_cons, Event.isNewProxy]
    · simp [List.filter, Event.isNewService]
    · intro _
      simp [List.filter, Event.isCreate]
    · intro program arguments hp
      simp at hp
  | cons a0 rest =>
    rw [run_trace_cons env cfg a0 rest h, hopts, hname]
    refine ⟨?_, ?_, ?_, ?_⟩
    · simp [List.countP_cons, Event.isNewProxy]
    · simp [List.filter, Event.isNewService]
    · intro h2
      simp at h2
    · intro program arguments hp
      obtain ⟨rfl, rfl⟩ := List.cons.inj hp
      simp [List.filter, Event.isCreate]

/-- Instance of the amended C7 at an empty name with a backend command. -/
theorem C7_empty_name_witness :
    unnamedBackend.name = "" ∧
    (run (okEnv RunEnd.returned) unnamedBackend).trace.countP Event.isNewProxy = 1 ∧
    (run (okEnv RunEnd.returned) unnamedBackend).trace.filter Event.isNewService =
      [Event.newService []] ∧
    (run (okEnv RunEnd.returned) unnamedBackend).trace.filter Event.isCreate =
      [Event.create ⟨""⟩
        [CreateOption.WithCommand "./backend" [], CreateOption.WithOutput Writer.Stdout]
        Outcome.ok] :=
  ⟨rfl, (C7_empty_name (okEnv RunEnd.returned) unnamedBackend rfl).1,
   (C7_empty_name (okEnv RunEnd.returned) unnamedBackend rfl).2.1,
   (C7_empty_name (okEnv RunEnd.returned) unnamedBackend rfl).2.2.2 "./backend" [] rfl⟩

/-- Claim C8: a run with a non-empty positional argument list `a` issues exactly
one Create, under the configured name, with program `a[0]`, arguments `a[1:]`
(program followed by arguments is `a`; a one-element `a` gives no arguments) and
standard output as the sink; it issues exactly one Delete, after the Create and
under the same name. -/
theorem C8_service_descriptor (env : Env) (cfg : Config) (h : cfg.args ≠ []) :
    (run env cfg).trace.filter Event.isCreate =
      [Event.create ⟨cfg.name⟩
        [CreateOption.WithCommand (cfg.args.head h) cfg.args.tail,
         CreateOption.WithOutput Writer.Stdout]
        env.create] ∧
    cfg.args.head h :: cfg.args.tail = cfg.args ∧
    (cfg.args.length = 1 → cfg.args.tail = []) ∧
    (run env cfg).trace.filter Event.isDelete = [Event.delete ⟨cfg.name⟩ env.delete] ∧
    Precedes Event.isCreate Event.isDelete (run env cfg).trace := by
  obtain ⟨name, address, endpoint, args, opts⟩ := cfg
  cases args with
  | nil => exact absurd rfl h
  | cons a0 rest =>
    rw [run_trace_cons env _ a0 rest rfl]
    refine ⟨?_, ?_, ?_, ?_, ?_⟩
    · simp [List.filter, Event.isCreate]
    · rfl
    · intro h1
      simpa using h1
    · simp [List.filter, Event.isDelete]
    · apply precedes_of_pairwise <;> simp [Event.isCreate, Event.isDelete]

/-- Instance of C8 at scenario 2: program "./backend", arguments "--flag". -/
theorem C8_service_descriptor_witness :
    scenario2.args ≠ [] ∧
    (run (okEnv RunEnd.returned) scenario2).trace.filter Event.isCreate =
      [Event.create ⟨"svc"⟩
        [CreateOption.WithCommand "./backend" ["--flag"],
         CreateOption.WithOutput Writer.Stdout]
        Outcome.ok] ∧
    (run (okEnv RunEnd.returned) scenario2).trace.filter Event.isDelete =
      [Event.delete ⟨"svc"⟩ Outcome.ok] :=
  ⟨by decide,
   (C8_service_descriptor (okEnv RunEnd.returned) scenario2 (by decide)).1,
   (C8_service_descriptor (okEnv RunEnd.returned) scenario2 (by decide)).2.2.2.1⟩

/-- Claim C9: every run constructs exactly one proxy and exactly one router.
The proxy is configured with the normalized endpoint (the configured endpoint,
or "localhost:9090" when that is empty) and is the one selected for that
endpoint: gRPC when it begins with "grpc", HTTP when it begins with "http", mucp
otherwise.  The router is built from the configured name and that proxy, and the
single router installed in the server is that router. -/
theorem C9_router_binding (env : Env) (cfg : Config) :
    ∃ p : Proxy,
      p.endpoint = (if cfg.endpoint = "" then "localhost:9090" else cfg.endpoint) ∧
      (BeginsWith p.endpoint "grpc" → p.kind = ProxyKind.grpc) ∧
      (BeginsWith p.endpoint "http" → p.kind = ProxyKind.http) ∧
      (¬ BeginsWith p.endpoint "grpc" → ¬ BeginsWith p.endpoint "http" →
        p.kind = ProxyKind.mucp) ∧
      (run env cfg).trace.filter Event.isNewProxy = [Event.newProxy p.kind p.endpoint] ∧
      (run env cfg).trace.filter Event.isMuxNew = [Event.muxNew cfg.name p] ∧
      (run env cfg).trace.filter Event.isServerInit =
        [Event.serverInit [ServerOption.WithRouter ⟨cfg.name, p⟩] env.init] := by
  have hs : (selectProxy (normalizeEndpoint cfg.endpoint)).endpoint
      = normalizeEndpoint cfg.endpoint := by
    unfold selectProxy
    split_ifs <;> rfl
  have hend : (selectProxy (normalizeEndpoint cfg.endpoint)).endpoint
      = (if cfg.endpoint = "" then "localhost:9090" else cfg.endpoint) := by
    rw [hs]
    unfold normalizeEndpoint
    by_cases h : cfg.endpoint = ""
    · rw [h]
      decide
    · have h0 : ¬ cfg.endpoint.length = 0 := fun h0 => h ((length_eq_zero_iff _).mp h0)
      simp [h, h0]
  refine ⟨selectProxy (normalizeEndpoint cfg.endpoint), hend, ?_, ?_, ?_, ?_, ?_, ?_⟩
  · intro h
    rw [hs] at h
    simp [selectProxy, (hasPrefix_iff _ _).mpr h]
  · intro h
    rw [hs] at h
    by_cases hg : HasPrefix (normalizeEndpoint cfg.endpoint) "grpc" = true
    · exfalso
      obtain ⟨t, ht⟩ := h
      obtain ⟨u, hu⟩ := (hasPrefix_iff _ _).mp hg
      have hdata := congrArg String.data (ht.symm.trans hu)
      have e1 : ("http" : String).data = ['h', 't', 't', 'p'] := rfl
      have e2 : ("grpc" : String).data = ['g', 'r', 'p', 'c'] := rfl
      simp [String.data_append, e1, e2] at hdata
    · simp [selectProxy, hg, (hasPrefix_iff _ _).mpr h]
  · intro hg hh
    rw [hs] at hg hh
    have hg1 : ¬ HasPrefix (normalizeEndpoint cfg.endpoint) "grpc" = true :=
      fun h => hg ((hasPrefix_iff _ _).mp h)
    have hh1 : ¬ HasPrefix (normalizeEndpoint cfg.endpoint) "http" = true :=
      fun h => hh ((hasPrefix_iff _ _).mp h)
    simp [selectProxy, hg1, hh1]
  all_goals
    cases h : cfg.args with
    | nil =>
      rw [run_trace_nil env cfg h]
      simp [List.filter, Event.isNewProxy, Event.isMuxNew, Event.isServerInit,
        selectProxy_endpoint]
    | cons a0 rest =>
      rw [run_trace_cons env cfg a0 rest h]
      simp [List.filter, Event.isNewProxy, Event.isMuxNew, Event.isServerInit,
        selectProxy_endpoint]

/-- Instance of C9 at scenario 2: the gRPC proxy for "grpc://localhost:9000" is
the one bound into the router that is installed. -/
theorem C9_router_binding_witness :
    BeginsWith "grpc://localhost:9000" "grpc" ∧
    (run (okEnv RunEnd.returned) scenario2).trace.filter Event.isNewProxy =
      [Event.newProxy ProxyKind.grpc "grpc://localhost:9000"] ∧
    (run (okEnv RunEnd.returned) scenario2).trace.filter Event.isMuxNew =
      [Event.muxNew "svc" ⟨ProxyKind.grpc, "grpc://localhost:9000"⟩] ∧
    (run (okEnv RunEnd.returned) scenario2).trace.filter Event.isServerInit =
      [Event.serverInit
        [ServerOption.WithRouter ⟨"svc", ⟨ProxyKind.grpc, "grpc://localhost:9000"⟩⟩]
        Outcome.ok] := by
  have hb : BeginsWith "grpc://localhost:9000" "grpc" := ⟨"://localhost:9000", by decide⟩
  obtain ⟨p, he, hg, _, _, h1, h2, h3⟩ :=
    C9_router_binding (okEnv RunEnd.returned) scenario2
  have he2 : p.endpoint = "grpc://localhost:9000" := he
  have hk : p.kind = ProxyKind.grpc := hg (he2 ▸ hb)
  have hp : p = ⟨ProxyKind.grpc, "grpc://localhost:9000"⟩ := by
    cases p
    simp_all
  subst hp
  exact ⟨hb, h1, h2, h3⟩

/-- Claim C10: every run emits exactly one log line, the "Serving" line; its
arguments are the identity string of the constructed proxy, the configured name
and the normalized endpoint (the default when the configured endpoint is empty);
it comes after the proxy construction and before the server-run call. -/
theorem C10_diagnostic_line (env : Env) (cfg : Config) :
    (run env cfg).trace.filter Event.isLogf =
      [Event.logf "Service [%s] Serving %s at endpoint %s\n"
        [env.proxyString (selectProxy (normalizeEndpoint cfg.endpoint)), cfg.name,
          if cfg.endpoint = "" then "localhost:9090" else cfg.endpoint]] ∧
    (run env cfg).trace.filter Event.isNewProxy =
      [Event.newProxy (selectProxy (normalizeEndpoint cfg.endpoint)).kind
        (if cfg.endpoint = "" then "localhost:9090" else cfg.endpoint)] ∧
    (run env cfg).trace.countP Event.isServiceRun = 1 ∧
    Precedes Event.isNewProxy Event.isLogf (run env cfg).trace ∧
    Precedes Event.isLogf Event.isServiceRun (run env cfg).trace := by
  have hd : DefaultEndpoint = "localhost:9090" := rfl
  rw [← hd, ← normalizeEndpoint_eq]
  cases h : cfg.args with
  | nil =>
    rw [run_trace_nil env cfg h]
    refine ⟨?_, ?_, ?_, ?_, ?_⟩
    · simp [List.filter, Event.isLogf]
    · simp [List.filter, Event.isNewProxy]
    · simp [List.countP_cons, Event.isServiceRun]
    · apply precedes_of_pairwise <;> simp [Event.isNewProxy, Event.isLogf]
    · apply precedes_of_pairwise <;> simp [Event.isLogf, Event.isServiceRun]
  | cons a0 rest =>
    rw [run_trace_cons env cfg a0 rest h]
    refine ⟨?_, ?_, ?_, ?_, ?_⟩
    · simp [List.filter, Event.isLogf]
    · simp [List.filter, Event.isNewProxy]
    · simp [List.countP_cons, Event.isServiceRun]
    · apply precedes_of_pairwise <;> simp [Event.isNewProxy, Event.isLogf]
    · apply precedes_of_pairwise <;> simp [Event.isLogf, Event.isServiceRun]

end Service
